import Mathlib

/-!
Verification of the tripmind-api flight-search route
(`app/api/flight-search/route.js` and its near-identical duplicate).

JavaScript numbers are embedded as exact rationals (`ℚ`), integers as
`Int`/`Nat`, nullable / possibly-absent JSON string fields as
`Option String` (with `none` for `undefined`/`null`).  `Math.round` is
round-half-toward-positive-infinity, i.e. `⌊x + 1/2⌋`.
-/

namespace Tripmind

/-- JS `Math.round`: nearest integer, ties toward +∞, i.e. `⌊x + 1/2⌋`. -/
def jsRound (x : ℚ) : ℤ := ⌊x + (1 : ℚ)/2⌋

/-- JS `parseInt` on a digit sequence, with an accumulator: fold each digit
into the value. -/
def accDigits (init : Nat) (ds : List Char) : Nat :=
  ds.foldl (fun n d => n * 10 + (d.toNat - 48)) init

/-- Leftmost match of the regex `(\d+)C` (a maximal digit run immediately
followed by the marker character `c`), returning the run's numeric value:
the embedding of `(iso.match(/(\d+)H/) || [])[1]` (resp. `M`).
`cur` carries the value of the digit run ending just before the current
position (`none` when the previous character was not a digit). -/
def findRun (c : Char) : Option Nat → List Char → Option Nat
  | _, [] => none
  | cur, x :: xs =>
    if x.isDigit then findRun c (some (cur.getD 0 * 10 + (x.toNat - 48))) xs
    else if x = c then
      match cur with
      | some n => some n
      | none => findRun c none xs
    else findRun c none xs

/-- Embedding of `isoDurationToHours` (`route.js` lines 59–65).  The JS guard
`!iso || !iso.startsWith("PT")` is embedded as "the first two characters
are not `P`,`T`" (an empty or absent string also fails that test). -/
def isoDurationToHours (iso : Option String) : ℚ :=
  match iso with
  | none => 0
  | some s =>
    let cs := s.toList
    if cs.take 2 = ['P', 'T'] then
      let h := (findRun 'H' none cs).getD 0
      let m := (findRun 'M' none cs).getD 0
      (jsRound (((h : ℚ) + (m : ℚ) / 60) * 10) : ℚ) / 10
    else 0

/-- JS truthiness of a nullable string (`null`/`undefined`/`""` are falsy). -/
def jsTruthy : Option String → Bool
  | none => false
  | some s => if s = "" then false else true

/-- The module-level mutable slot `tokenCache = { token: null, expiresAt: 0 }`. -/
structure TokenCache where
  token : Option String
  expiresAt : Int
  deriving DecidableEq, Repr

/-- JSON body of a successful credential exchange (`{access_token, expires_in}`). -/
structure TokenResp where
  access_token : Option String
  expires_in : Option Int
  deriving DecidableEq, Repr

/-- The guard of `getAmadeusToken` (line 23):
`tokenCache.token && now < tokenCache.expiresAt - 60_000`. -/
def tokenCacheValid (c : TokenCache) (now : Int) : Bool :=
  jsTruthy c.token && decide (now < c.expiresAt - 60000)

/-- Embedding of `getAmadeusToken` (lines 21–54) as a state-passing function.  `now1` is
the `Date.now()` read on entry, `now2` the `Date.now()` read after the
exchange (line 52); `ex` is the outcome of the credential-exchange `fetch`
(`Except.error txt` for a non-`ok` response with body `txt`).  Returns
(result, new cache, number of exchange calls performed). -/
def getAmadeusToken (c : TokenCache) (now1 now2 : Int) (ex : Except String TokenResp) :
    Except String (Option String) × TokenCache × Nat :=
  if tokenCacheValid c now1 then
    (Except.ok c.token, c, 0)
  else
    match ex with
    | Except.error txt => (Except.error ("Amadeus OAuth failed: " ++ txt), c, 1)
    | Except.ok data =>
      let c' : TokenCache :=
        { token := data.access_token, expiresAt := now2 + data.expires_in.getD 0 * 1000 }
      (Except.ok c'.token, c', 1)

/-- The fixed DACH origin allow-list (lines 7–14). -/
def DACH_IATA : List String :=
  ["BER","BRE","CGN","DTM","DRS","DUS","FRA","HHN","FDH","HAM","HAJ","FKB","LEJ","FMM","MUC","FMO","NUE","PAD","STR","NRN",
   "GRZ","INN","KLU","LNZ","SZG","VIE",
   "BSL","BRN","GVA","LUG","SIR","ACH","ZRH"]

/-- One raw provider segment; `departure_iataCode` stands for
`s?.departure?.iataCode` (absent at either level collapses to `none`),
similarly for the other optional-chained fields. -/
structure RawSegment where
  departure_iataCode : Option String
  arrival_iataCode : Option String
  departure_at : Option String
  arrival_at : Option String
  carrierCode : Option String
  number : Option String
  deriving DecidableEq, Repr

/-- One raw provider itinerary. -/
structure RawItinerary where
  duration : Option String
  segments : List RawSegment
  deriving DecidableEq, Repr

/-- One raw provider offer; `price_total` stands for `offer?.price?.total`,
`price_currency` for `offer?.price?.currency`; an absent
`validatingAirlineCodes` / `itineraries` is the empty list (`|| []`). -/
structure RawOffer where
  price_total : Option String
  price_currency : Option String
  validatingAirlineCodes : List String
  itineraries : List RawItinerary
  deriving DecidableEq, Repr

/-- A normalized segment (lines 176–183). -/
structure Segment where
  from' : Option String
  to' : Option String
  depart : Option String
  arrive : Option String
  carrier : Option String
  number : Option String
  deriving DecidableEq, Repr

/-- A normalized itinerary (lines 174–185). -/
structure Itinerary where
  durationHours : ℚ
  segments : List Segment
  deriving DecidableEq, Repr

/-- A normalized offer (line 197). -/
structure NormalizedOffer where
  price : Option String
  currency : String
  totalDurationHours : ℚ
  itineraries : List Itinerary
  airlines : List String
  deriving DecidableEq, Repr

/-- JS `Array.from(new Set(l))`: de-duplication keeping the first occurrence
of each element.  `dedupFirstAux seen l` drops elements already in `seen`. -/
def dedupFirstAux : List String → List String → List String
  | _, [] => []
  | seen, x :: xs =>
    if x ∈ seen then dedupFirstAux seen xs else x :: dedupFirstAux (x :: seen) xs

/-- JS `Array.from(new Set(l))` on a list of strings. -/
def dedupFirst (l : List String) : List String := dedupFirstAux [] l

/-- Embedding of `(offer?.itineraries || []).flatMap(it => (it?.segments || []).map(s => s?.carrierCode)).filter(Boolean)`
(line 189): every segment's carrier code across all itineraries, with
absent and empty entries dropped. -/
def segCarrierCodes (offer : RawOffer) : List String :=
  (offer.itineraries.flatMap fun it => it.segments.map RawSegment.carrierCode).filterMap
    fun o => match o with
      | none => none
      | some s => if s = "" then none else some s

/-- JS `x || 0` on a number. -/
def jsOrZero (q : ℚ) : ℚ := if q = 0 then 0 else q

/-- Normalization of one raw segment (lines 176–183). -/
def normalizeSegment (s : RawSegment) : Segment :=
  { from' := s.departure_iataCode
    to' := s.arrival_iataCode
    depart := s.departure_at
    arrive := s.arrival_at
    carrier := s.carrierCode
    number := s.number }

/-- Normalization of one raw itinerary (lines 174–185). -/
def normalizeItinerary (it : RawItinerary) : Itinerary :=
  { durationHours := isoDurationToHours it.duration
    segments := it.segments.map normalizeSegment }

/-- The offer normalizer (lines 170–198); `currency` is the destructured
request-body currency (after its `= "EUR"` default). -/
def normalizeOffer (currency : String) (offer : RawOffer) : NormalizedOffer :=
  let itineraries := offer.itineraries.map normalizeItinerary
  { price := offer.price_total
    currency := offer.price_currency.getD currency
    totalDurationHours :=
      (jsRound ((itineraries.foldl (fun sum it => sum + jsOrZero it.durationHours) 0) * 10) : ℚ) / 10
    itineraries := itineraries
    airlines := dedupFirst (offer.validatingAirlineCodes ++ segCarrierCodes offer) }

/-- The destructured request body (lines 106–114), before defaults.
`none` stands for an absent (`undefined`) field. -/
structure ReqBody where
  origin : Option String
  destination : Option String
  departDate : Option String
  returnDate : Option String
  adults : Option Int
  currency : Option String
  maxFlightHours : Option ℚ
  deriving DecidableEq, Repr

/-- JS `String.prototype.trim`: strip leading and trailing whitespace
(embedded character-wise). -/
def jsTrim (s : String) : String :=
  String.mk (((s.toList.dropWhile Char.isWhitespace).reverse.dropWhile
    Char.isWhitespace).reverse)

/-- The validation predicate `bad = v => v === undefined || v === null || (typeof v === "string" && v.trim() === "")`
(line 117), on a nullable string field. -/
def badField : Option String → Bool
  | none => true
  | some s => if jsTrim s = "" then true else false

/-- The whole validation test of line 118:
`bad(origin) || bad(destination) || bad(departDate) || !adults`,
with `adults` already defaulted to 1 when absent. -/
def reqInvalid (b : ReqBody) : Bool :=
  badField b.origin || badField b.destination || badField b.departDate
    || (if b.adults.getD 1 = 0 then true else false)

/-- Embedding of `String(v).toUpperCase().slice(0, 3)` (lines 123–124), on a field that
passed validation (hence present); uppercasing and slicing are embedded
character-wise. -/
def normCode (v : Option String) : String :=
  String.mk (((v.getD "").toList.map Char.toUpper).take 3)

/-- JS `Number(adults) || 1` (line 146): JS `||` falls back on 0. -/
def jsOrOne (a : Int) : Int := if a = 0 then 1 else a

/-- The clamp `Math.min(Math.max(Number(adults) || 1, 1), 9)` (line 146). -/
def clampAdults (a : Int) : Int := min (max (jsOrOne a) 1) 9

/-- JS `v || null` on a nullable string (`""` collapses to `null`). -/
def jsOrNullStr : Option String → Option String
  | none => none
  | some s => if s = "" then none else some s

/-- JS `v || null` on a nullable number (`0` collapses to `null`). -/
def jsOrNullRat : Option ℚ → Option ℚ
  | none => none
  | some q => if q = 0 then none else some q

/-- The query parameters sent to the offer-search endpoint (lines 142–151);
`adults` is kept as the clamped number whose decimal string is sent. -/
structure ProviderQuery where
  originLocationCode : String
  destinationLocationCode : String
  departureDate : String
  returnDate : Option String
  adults : Int
  currencyCode : String
  maxCount : String
  nonStop : String
  deriving DecidableEq, Repr

/-- The echoed `query` object of the success envelope (line 207). -/
structure EchoQuery where
  origin : String
  destination : String
  departDate : String
  returnDate : Option String
  adults : Int
  currency : String
  maxFlightHours : Option ℚ
  deriving DecidableEq, Repr

/-- The success response envelope (lines 206–211). -/
structure Envelope where
  query : EchoQuery
  fetchedAt : String
  count : Nat
  results : List NormalizedOffer
  deriving DecidableEq, Repr

/-- A response body: either an error envelope `{error, details?}` or the
success envelope. -/
inductive RespBody where
  | err (error : String) (details : Option String)
  | ok (env : Envelope)
  deriving DecidableEq, Repr

/-- Observable outcome of one `POST` invocation: HTTP status, body, how
many credential exchanges ran, whether the offer-search endpoint was
called (and with which query), and the token-cache slot afterwards. -/
structure PostResult where
  status : Nat
  body : RespBody
  exchangeCalls : Nat
  providerCalled : Bool
  providerQuery : Option ProviderQuery
  cache : TokenCache
  deriving DecidableEq, Repr

/-- The `POST` handler (lines 104–221) as a pure pipeline.  Network effects
are parameters: `ex` is the credential-exchange outcome (used only if the
cache misses), `prov` the offer-search outcome (`Except.error (st, txt)`
for a non-`ok` response with status `st` and body `txt`), `fetchedAt` the
`new Date().toISOString()` string.  A thrown `getAmadeusToken` error is
caught by the outer `catch` and reported as a 500 "Server error". -/
def postHandler (b : ReqBody) (cache : TokenCache) (now1 now2 : Int)
    (ex : Except String TokenResp) (prov : Except (Nat × String) (List RawOffer))
    (fetchedAt : String) : PostResult :=
  if reqInvalid b then
    { status := 400, body := .err "Missing required fields" none,
      exchangeCalls := 0, providerCalled := false, providerQuery := none, cache := cache }
  else
    let ORI := normCode b.origin
    let DST := normCode b.destination
    if !(DACH_IATA.contains ORI) then
      { status := 400, body := .err "Origin not allowed (DACH only)" none,
        exchangeCalls := 0, providerCalled := false, providerQuery := none, cache := cache }
    else
      match getAmadeusToken cache now1 now2 ex with
      | (Except.error msg, c', k) =>
        { status := 500, body := .err "Server error" (some msg),
          exchangeCalls := k, providerCalled := false, providerQuery := none, cache := c' }
      | (Except.ok _tok, c', k) =>
        let adultsV := b.adults.getD 1
        let currency := b.currency.getD "EUR"
        let pq : ProviderQuery :=
          { originLocationCode := ORI, destinationLocationCode := DST,
            departureDate := b.departDate.getD "",
            returnDate := jsOrNullStr b.returnDate,
            adults := clampAdults adultsV,
            currencyCode := if currency = "" then "EUR" else currency,
            maxCount := "20", nonStop := "false" }
        match prov with
        | Except.error (st, txt) =>
          { status := st, body := .err "Amadeus API error" (some txt),
            exchangeCalls := k, providerCalled := true, providerQuery := some pq, cache := c' }
        | Except.ok offers =>
          let items := offers.map (normalizeOffer currency)
          let filtered :=
            match b.maxFlightHours with
            | some mf =>
              if mf ≠ 0 ∧ 0 < mf then items.filter (fun x => x.totalDurationHours ≤ mf) else items
            | none => items
          { status := 200,
            body := .ok
              { query :=
                  { origin := ORI, destination := DST,
                    departDate := b.departDate.getD "",
                    returnDate := jsOrNullStr b.returnDate,
                    adults := adultsV, currency := currency,
                    maxFlightHours := jsOrNullRat b.maxFlightHours },
                fetchedAt := fetchedAt, count := filtered.length, results := filtered },
            exchangeCalls := k, providerCalled := true, providerQuery := some pq, cache := c' }

/-! ## Duration-parser lemmas -/

theorem toList_mk (l : List Char) : (String.mk l).toList = l := rfl

theorem toList_eq_data (s : String) : s.toList = s.data := rfl

theorem accDigits_cons (init : Nat) (d : Char) (ds : List Char) :
    accDigits init (d :: ds) = accDigits (init * 10 + (d.toNat - 48)) ds := rfl

theorem findRun_skip (c x : Char) (cur : Option Nat) (xs : List Char)
    (hx : x.isDigit = false) (hxc : ¬ x = c) :
    findRun c cur (x :: xs) = findRun c none xs := by
  cases cur <;> simp [findRun, hx, hxc]

theorem findRun_hit (c : Char) (n : Nat) (xs : List Char) (hc : c.isDigit = false) :
    findRun c (some n) (c :: xs) = some n := by
  simp [findRun, hc]

theorem findRun_digits (c : Char) (ds : List Char) (hds : ∀ d ∈ ds, d.isDigit = true)
    (hne : ds ≠ []) :
    ∀ (cur : Option Nat) (rest : List Char),
      findRun c cur (ds ++ rest) = findRun c (some (accDigits (cur.getD 0) ds)) rest := by
  induction ds with
  | nil => exact absurd rfl hne
  | cons d ds ih =>
    intro cur rest
    have hdd : d.isDigit = true := hds d (List.mem_cons_self d ds)
    cases ds with
    | nil => simp [findRun, hdd, accDigits]
    | cons d2 ds2 =>
      have h2 : ∀ x ∈ d2 :: ds2, x.isDigit = true := fun x hx => hds x (List.mem_cons_of_mem d hx)
      have step : findRun c cur ((d :: d2 :: ds2) ++ rest)
          = findRun c (some (cur.getD 0 * 10 + (d.toNat - 48))) ((d2 :: ds2) ++ rest) := by
        simp [findRun, hdd]
      rw [step, ih h2 (by simp) (some (cur.getD 0 * 10 + (d.toNat - 48))) rest]
      rfl

theorem isoDurationToHours_PT (l : List Char) :
    isoDurationToHours (some (String.mk ('P' :: 'T' :: l)))
      = (jsRound ((((findRun 'H' none ('P' :: 'T' :: l)).getD 0 : ℚ)
          + ((findRun 'M' none ('P' :: 'T' :: l)).getD 0 : ℚ) / 60) * 10) : ℚ) / 10 := rfl

theorem jsRound_nonneg {x : ℚ} (hx : 0 ≤ x) : 0 ≤ jsRound x := by
  unfold jsRound
  have h : (0 : ℚ) ≤ x + 1/2 := by linarith
  exact Int.floor_nonneg.mpr h

/-! ## Duration-parser claims -/

/-- C5: on a well-formed duration string `PT{h}H{m}M` (and on the `H`-only
and `M`-only variants, the missing component defaulting to 0),
`isoDurationToHours` returns `h + m/60` rounded to the nearest tenth by
round-half-up on the tenfold value. -/
theorem isoDuration_wellformed (ds ms : List Char) (hd : ds ≠ []) (hm : ms ≠ [])
    (h1 : ∀ d ∈ ds, d.isDigit = true) (h2 : ∀ d ∈ ms, d.isDigit = true) :
    isoDurationToHours (some (String.mk ('P' :: 'T' :: (ds ++ 'H' :: (ms ++ ['M'])))))
      = (jsRound (((accDigits 0 ds : ℚ) + (accDigits 0 ms : ℚ) / 60) * 10) : ℚ) / 10
    ∧ isoDurationToHours (some (String.mk ('P' :: 'T' :: (ds ++ ['H']))))
      = (jsRound (((accDigits 0 ds : ℚ) + (0 : ℚ) / 60) * 10) : ℚ) / 10
    ∧ isoDurationToHours (some (String.mk ('P' :: 'T' :: (ms ++ ['M']))))
      = (jsRound (((0 : ℚ) + (accDigits 0 ms : ℚ) / 60) * 10) : ℚ) / 10 := by
  refine ⟨?_, ?_, ?_⟩
  · have eH : findRun 'H' none ('P' :: 'T' :: (ds ++ 'H' :: (ms ++ ['M'])))
        = some (accDigits 0 ds) := by
      rw [findRun_skip 'H' 'P' none _ (by decide) (by decide),
        findRun_skip 'H' 'T' none _ (by decide) (by decide),
        findRun_digits 'H' ds h1 hd none ('H' :: (ms ++ ['M']))]
      exact findRun_hit 'H' _ _ (by decide)
    have eM : findRun 'M' none ('P' :: 'T' :: (ds ++ 'H' :: (ms ++ ['M'])))
        = some (accDigits 0 ms) := by
      rw [findRun_skip 'M' 'P' none _ (by decide) (by decide),
        findRun_skip 'M' 'T' none _ (by decide) (by decide),
        findRun_digits 'M' ds h1 hd none ('H' :: (ms ++ ['M'])),
        findRun_skip 'M' 'H' _ _ (by decide) (by decide),
        findRun_digits 'M' ms h2 hm none ['M']]
      exact findRun_hit 'M' _ _ (by decide)
    rw [isoDurationToHours_PT, eH, eM]
    simp
  · have eH : findRun 'H' none ('P' :: 'T' :: (ds ++ ['H'])) = some (accDigits 0 ds) := by
      rw [findRun_skip 'H' 'P' none _ (by decide) (by decide),
        findRun_skip 'H' 'T' none _ (by decide) (by decide),
        findRun_digits 'H' ds h1 hd none ['H']]
      exact findRun_hit 'H' _ _ (by decide)
    have eM : findRun 'M' none ('P' :: 'T' :: (ds ++ ['H'])) = none := by
      rw [findRun_skip 'M' 'P' none _ (by decide) (by decide),
        findRun_skip 'M' 'T' none _ (by decide) (by decide),
        findRun_digits 'M' ds h1 hd none ['H'],
        findRun_skip 'M' 'H' _ _ (by decide) (by decide)]
      rfl
    rw [isoDurationToHours_PT, eH, eM]
    simp
  · have eH : findRun 'H' none ('P' :: 'T' :: (ms ++ ['M'])) = none := by
      rw [findRun_skip 'H' 'P' none _ (by decide) (by decide),
        findRun_skip 'H' 'T' none _ (by decide) (by decide),
        findRun_digits 'H' ms h2 hm none ['M'],
        findRun_skip 'H' 'M' _ _ (by decide) (by decide)]
      rfl
    have eM : findRun 'M' none ('P' :: 'T' :: (ms ++ ['M'])) = some (accDigits 0 ms) := by
      rw [findRun_skip 'M' 'P' none _ (by decide) (by decide),
        findRun_skip 'M' 'T' none _ (by decide) (by decide),
        findRun_digits 'M' ms h2 hm none ['M']]
      exact findRun_hit 'M' _ _ (by decide)
    rw [isoDurationToHours_PT, eH, eM]
    simp

/-- Witness for C5: `PT7H30M` parses to `7 + 30/60` rounded at the tenth,
i.e. `7.5`. -/
theorem isoDuration_wellformed_witness :
    isoDurationToHours (some (String.mk ['P', 'T', '7', 'H', '3', '0', 'M']))
      = (jsRound (((accDigits 0 ['7'] : ℚ) + (accDigits 0 ['3', '0'] : ℚ) / 60) * 10) : ℚ) / 10
    ∧ isoDurationToHours (some "PT7H30M") = 15/2 :=
  ⟨(isoDuration_wellformed ['7'] ['3', '0'] (by decide) (by decide) (by decide) (by decide)).1,
   by with_unfolding_all rfl⟩

/-- C8: `isoDurationToHours` is total, its value is never negative, and it
returns exactly 0 on an absent input and on any string whose first two
characters are not `PT`. -/
theorem isoDuration_total_nonneg (iso : Option String) :
    0 ≤ isoDurationToHours iso
    ∧ (iso = none → isoDurationToHours iso = 0)
    ∧ (∀ s, iso = some s → s.toList.take 2 ≠ ['P', 'T'] → isoDurationToHours iso = 0) := by
  refine ⟨?_, ?_, ?_⟩
  · cases iso with
    | none => simp [isoDurationToHours]
    | some s =>
      by_cases hg : s.toList.take 2 = ['P', 'T']
      · simp only [isoDurationToHours, hg, if_true]
        apply div_nonneg _ (by norm_num)
        have hx : (0 : ℚ) ≤ (((findRun 'H' none s.toList).getD 0 : ℚ)
            + ((findRun 'M' none s.toList).getD 0 : ℚ) / 60) * 10 := by positivity
        exact_mod_cast jsRound_nonneg hx
      · rw [toList_eq_data] at hg
        simp [isoDurationToHours, hg]
  · intro h
    subst h
    rfl
  · intro s hs hg
    subst hs
    rw [toList_eq_data] at hg
    simp [isoDurationToHours, hg]

/-- Witness for C8: nonnegative on a well-formed string, 0 on an absent
input and on a string not beginning with `PT`. -/
theorem isoDuration_total_nonneg_witness :
    0 ≤ isoDurationToHours (some "PT7H30M")
    ∧ isoDurationToHours none = 0
    ∧ isoDurationToHours (some "XT7H") = 0 :=
  ⟨(isoDuration_total_nonneg (some "PT7H30M")).1,
   (isoDuration_total_nonneg none).2.1 rfl,
   (isoDuration_total_nonneg (some "XT7H")).2.2 "XT7H" rfl (by decide)⟩

/-! ## Token-cache claims -/

/-- C1: on a cache access with a (non-empty) cached token and current time
strictly more than 60 seconds before the recorded expiry, `getAmadeusToken`
returns the cached token, performs no credential exchange, and leaves the
cache slot unchanged; on an access at or past that margin or with an empty
cache, a successful credential exchange is performed exactly once, the
cache is overwritten with the new token and expiry, and the new token is
returned. -/
theorem tokenCache_hit_and_refresh (c : TokenCache) (now1 now2 : Int)
    (ex : Except String TokenResp) :
    (tokenCacheValid c now1 = true →
      getAmadeusToken c now1 now2 ex = (Except.ok c.token, c, 0))
    ∧ (tokenCacheValid c now1 = false → ∀ tr, ex = Except.ok tr →
      getAmadeusToken c now1 now2 ex =
        (Except.ok tr.access_token,
         { token := tr.access_token, expiresAt := now2 + tr.expires_in.getD 0 * 1000 }, 1)) := by
  constructor
  · intro h
    simp [getAmadeusToken, h]
  · intro h tr he
    subst he
    simp [getAmadeusToken, h]

/-- Witness for C1: a hit at a fresh cache returns the cached token with no
exchange; a miss on the empty cache performs one exchange and installs the
new token. -/
theorem tokenCache_hit_and_refresh_witness :
    getAmadeusToken ⟨some "tok", 1000000⟩ 0 0 (Except.error "x")
      = (Except.ok (some "tok"), ⟨some "tok", 1000000⟩, 0)
    ∧ getAmadeusToken ⟨none, 0⟩ 5 7 (Except.ok ⟨some "newtok", some 1799⟩)
      = (Except.ok (some "newtok"), ⟨some "newtok", 7 + 1799 * 1000⟩, 1) :=
  ⟨(tokenCache_hit_and_refresh ⟨some "tok", 1000000⟩ 0 0 (Except.error "x")).1 rfl,
   (tokenCache_hit_and_refresh ⟨none, 0⟩ 5 7 (Except.ok ⟨some "newtok", some 1799⟩)).2 rfl
     ⟨some "newtok", some 1799⟩ rfl⟩

/-- C4: when the cache misses and the credential exchange answers with a
non-success status, `getAmadeusToken` fails with an error carrying the raw
response body, the cache keeps its previous token and expiry, and any
subsequent access (at the same or a later time) performs the exchange
again. -/
theorem tokenCache_exchange_failure (c : TokenCache) (now1 now2 : Int) (txt : String)
    (h : tokenCacheValid c now1 = false) :
    getAmadeusToken c now1 now2 (Except.error txt)
      = (Except.error ("Amadeus OAuth failed: " ++ txt), c, 1)
    ∧ ∀ t n2 ex, now1 ≤ t → (getAmadeusToken c t n2 ex).2.2 = 1 := by
  constructor
  · simp [getAmadeusToken, h]
  · intro t n2 ex ht
    have hv : tokenCacheValid c t = false := by
      cases hj : jsTruthy c.token with
      | false => simp [tokenCacheValid, hj]
      | true =>
        have h1 : ¬ (now1 < c.expiresAt - 60000) := by
          intro hlt
          simp [tokenCacheValid, hj, hlt] at h
        have h2 : ¬ (t < c.expiresAt - 60000) := fun hlt => h1 (lt_of_le_of_lt ht hlt)
        simp [tokenCacheValid, hj, decide_eq_false h2]
    cases ex <;> simp [getAmadeusToken, hv]

/-- Witness for C4: a failing exchange on the empty cache surfaces the raw
body in the error, preserves the cache, and the next access exchanges
again. -/
theorem tokenCache_exchange_failure_witness :
    getAmadeusToken ⟨none, 0⟩ 0 0 (Except.error "denied")
      = (Except.error ("Amadeus OAuth failed: " ++ "denied"), ⟨none, 0⟩, 1)
    ∧ (getAmadeusToken ⟨none, 0⟩ 99 3 (Except.error "denied")).2.2 = 1 :=
  ⟨(tokenCache_exchange_failure ⟨none, 0⟩ 0 0 "denied" rfl).1,
   (tokenCache_exchange_failure ⟨none, 0⟩ 0 0 "denied" rfl).2 99 3 (Except.error "denied")
     (by decide)⟩

/-- C10: a successful exchange whose response declares no lifetime
(`expires_in` absent) sets the cache expiry to the refresh instant itself;
such a cache never satisfies the more-than-60-seconds-before-expiry
validity test at any later time, so every subsequent access performs a new
credential exchange. -/
theorem tokenCache_no_lifetime_never_valid (c : TokenCache) (now1 now2 : Int)
    (tok : Option String) (h : tokenCacheValid c now1 = false) :
    ((getAmadeusToken c now1 now2 (Except.ok ⟨tok, none⟩)).2.1.expiresAt = now2)
    ∧ (∀ t, now2 ≤ t →
        tokenCacheValid (getAmadeusToken c now1 now2 (Except.ok ⟨tok, none⟩)).2.1 t = false)
    ∧ (∀ t n2 ex, now2 ≤ t →
        (getAmadeusToken (getAmadeusToken c now1 now2 (Except.ok ⟨tok, none⟩)).2.1 t n2 ex).2.2
          = 1) := by
  have hr : (getAmadeusToken c now1 now2 (Except.ok ⟨tok, none⟩)).2.1
      = { token := tok, expiresAt := now2 } := by
    simp [getAmadeusToken, h]
  have hval : ∀ t : Int, now2 ≤ t → tokenCacheValid ⟨tok, now2⟩ t = false := by
    intro t ht
    have h2 : ¬ (t < now2 - 60000) := by omega
    simp [tokenCacheValid, decide_eq_false h2]
  refine ⟨by rw [hr], ?_, ?_⟩
  · intro t ht
    rw [hr]
    exact hval t ht
  · intro t n2 ex ht
    rw [hr]
    cases ex <;> simp [getAmadeusToken, hval t ht]

/-- Witness for C10: refreshing the empty cache at instant 50 with no
declared lifetime yields expiry 50, an invalid cache at time 60, and a
further exchange on the next access. -/
theorem tokenCache_no_lifetime_never_valid_witness :
    (getAmadeusToken ⟨none, 0⟩ 0 50 (Except.ok ⟨some "t", none⟩)).2.1.expiresAt = 50
    ∧ tokenCacheValid (getAmadeusToken ⟨none, 0⟩ 0 50 (Except.ok ⟨some "t", none⟩)).2.1 60 = false
    ∧ (getAmadeusToken (getAmadeusToken ⟨none, 0⟩ 0 50 (Except.ok ⟨some "t", none⟩)).2.1
        60 70 (Except.error "x")).2.2 = 1 :=
  ⟨(tokenCache_no_lifetime_never_valid ⟨none, 0⟩ 0 50 (some "t") rfl).1,
   (tokenCache_no_lifetime_never_valid ⟨none, 0⟩ 0 50 (some "t") rfl).2.1 60 (by decide),
   (tokenCache_no_lifetime_never_valid ⟨none, 0⟩ 0 50 (some "t") rfl).2.2 60 70
     (Except.error "x") (by decide)⟩

/-! ## Normalizer lemmas -/

theorem mem_dedupFirstAux (a : String) :
    ∀ (l seen : List String), a ∈ dedupFirstAux seen l ↔ a ∈ l ∧ a ∉ seen := by
  intro l
  induction l with
  | nil => intro seen; simp [dedupFirstAux]
  | cons x xs ih =>
    intro seen
    by_cases hx : x ∈ seen
    · simp only [dedupFirstAux, if_pos hx]
      rw [ih seen, List.mem_cons]
      constructor
      · rintro ⟨h1, h2⟩
        exact ⟨Or.inr h1, h2⟩
      · rintro ⟨h1 | h1, h2⟩
        · subst h1
          exact absurd hx h2
        · exact ⟨h1, h2⟩
    · simp only [dedupFirstAux, if_neg hx]
      rw [List.mem_cons, ih (x :: seen), List.mem_cons]
      by_cases hax : a = x
      · subst hax
        simp [hx]
      · simp [hax]

theorem nodup_dedupFirstAux : ∀ (l seen : List String), (dedupFirstAux seen l).Nodup := by
  intro l
  induction l with
  | nil => intro seen; simp [dedupFirstAux]
  | cons x xs ih =>
    intro seen
    by_cases hx : x ∈ seen
    · simp only [dedupFirstAux, if_pos hx]
      exact ih seen
    · simp only [dedupFirstAux, if_neg hx]
      rw [List.nodup_cons]
      refine ⟨?_, ih (x :: seen)⟩
      intro hmem
      rcases (mem_dedupFirstAux x xs (x :: seen)).mp hmem with ⟨_, hns⟩
      exact hns (List.mem_cons_self x seen)

theorem mem_dedupFirst (a : String) (l : List String) : a ∈ dedupFirst l ↔ a ∈ l := by
  unfold dedupFirst
  rw [mem_dedupFirstAux]
  simp

theorem nodup_dedupFirst (l : List String) : (dedupFirst l).Nodup :=
  nodup_dedupFirstAux l []

theorem jsOrZero_eq (q : ℚ) : jsOrZero q = q := by
  by_cases h : q = 0 <;> simp [jsOrZero, h]

theorem foldl_durations (l : List Itinerary) :
    ∀ init : ℚ, l.foldl (fun sum it => sum + jsOrZero it.durationHours) init
      = init + (l.map Itinerary.durationHours).sum := by
  induction l with
  | nil => intro init; simp
  | cons x xs ih =>
    intro init
    rw [List.foldl_cons, ih, List.map_cons, List.sum_cons, jsOrZero_eq]
    ring

theorem isoDuration_tenth (iso : Option String) :
    ∃ k : ℤ, isoDurationToHours iso = (k : ℚ) / 10 := by
  cases iso with
  | none => exact ⟨0, by simp [isoDurationToHours]⟩
  | some s =>
    by_cases hg : s.data.take 2 = ['P', 'T']
    · exact ⟨jsRound ((((findRun 'H' none s.data).getD 0 : ℚ)
          + ((findRun 'M' none s.data).getD 0 : ℚ) / 60) * 10),
        by simp [isoDurationToHours, toList_eq_data, hg]⟩
    · exact ⟨0, by simp [isoDurationToHours, toList_eq_data, hg]⟩

theorem sum_parsed_tenths (l : List RawItinerary) :
    ∃ K : ℤ, (l.map (fun it => isoDurationToHours it.duration)).sum = (K : ℚ) / 10 := by
  induction l with
  | nil => exact ⟨0, by simp⟩
  | cons x xs ih =>
    rcases ih with ⟨K, hK⟩
    rcases isoDuration_tenth x.duration with ⟨k, hk⟩
    refine ⟨k + K, ?_⟩
    rw [List.map_cons, List.sum_cons, hk, hK]
    push_cast
    ring

theorem jsRound_intCast (K : ℤ) : jsRound (K : ℚ) = K := by
  unfold jsRound
  rw [add_comm, Int.floor_add_int]
  norm_num

/-! ## Normalizer claims -/

/-- Modelled from the spec claim for C2 only (the source differs): the
airlines list with empty/absent entries dropped from BOTH sources — the
declared validating-airline codes and the segment carrier codes — then
de-duplicated keeping first-occurrence order. -/
def airlinesPerClaim (offer : RawOffer) : List String :=
  dedupFirst ((offer.validatingAirlineCodes.filter (fun s => !(s == ""))) ++ segCarrierCodes offer)

/-- A raw offer whose declared validating-airline list holds one empty
entry and which has no itineraries. -/
def offerEmptyCode : RawOffer :=
  { price_total := none, price_currency := none,
    validatingAirlineCodes := [""], itineraries := [] }

/-- Counterexample to C2 as stated: an empty entry in the declared
validating-airline codes is NOT dropped by the code (the `.filter(Boolean)`
applies only to the segment carrier codes), so the normalized airlines
list keeps the empty string while the claimed value drops it. -/
theorem airlines_counterexample :
    (normalizeOffer "EUR" offerEmptyCode).airlines = [""]
    ∧ airlinesPerClaim offerEmptyCode = []
    ∧ (normalizeOffer "EUR" offerEmptyCode).airlines ≠ airlinesPerClaim offerEmptyCode := by
  refine ⟨rfl, rfl, ?_⟩
  decide

/-- C2 amended: the normalized airlines field equals the offer's declared
validating-airline codes followed by every segment's carrier code across
all itineraries, de-duplicated keeping first-occurrence order, where
empty/absent entries are dropped from the segment carrier codes only (the
validating-airline codes are passed through unfiltered). -/
theorem airlines_amended (cur : String) (offer : RawOffer) :
    (normalizeOffer cur offer).airlines
      = dedupFirst (offer.validatingAirlineCodes ++ segCarrierCodes offer)
    ∧ (normalizeOffer cur offer).airlines.Nodup
    ∧ (∀ a, a ∈ (normalizeOffer cur offer).airlines
        ↔ a ∈ offer.validatingAirlineCodes ∨ a ∈ segCarrierCodes offer) := by
  refine ⟨rfl, nodup_dedupFirst _, ?_⟩
  intro a
  show a ∈ dedupFirst (offer.validatingAirlineCodes ++ segCarrierCodes offer) ↔ _
  rw [mem_dedupFirst, List.mem_append]

/-- C6: the normalized `totalDurationHours` is the sum of the itineraries'
`durationHours` (each produced by the duration parser) rounded at the
tenth by round-half-up on the tenfold value; as every summand is already a
tenth-multiple the rounding is exact, and zero itineraries yield 0. -/
theorem totalDuration_correct (cur : String) (offer : RawOffer) :
    (normalizeOffer cur offer).itineraries.map Itinerary.durationHours
      = offer.itineraries.map (fun it => isoDurationToHours it.duration)
    ∧ (normalizeOffer cur offer).totalDurationHours
      = (jsRound ((((normalizeOffer cur offer).itineraries.map Itinerary.durationHours).sum)
          * 10) : ℚ) / 10
    ∧ (normalizeOffer cur offer).totalDurationHours
      = ((normalizeOffer cur offer).itineraries.map Itinerary.durationHours).sum
    ∧ (offer.itineraries = [] → (normalizeOffer cur offer).totalDurationHours = 0) := by
  have hdur : (normalizeOffer cur offer).itineraries.map Itinerary.durationHours
      = offer.itineraries.map (fun it => isoDurationToHours it.duration) := by
    show (offer.itineraries.map normalizeItinerary).map Itinerary.durationHours = _
    rw [List.map_map]
    rfl
  have hfold : (normalizeOffer cur offer).totalDurationHours
      = (jsRound ((((normalizeOffer cur offer).itineraries.map Itinerary.durationHours).sum)
          * 10) : ℚ) / 10 := by
    show (jsRound ((offer.itineraries.map normalizeItinerary).foldl
        (fun sum it => sum + jsOrZero it.durationHours) 0 * 10) : ℚ) / 10 = _
    rw [foldl_durations, zero_add]
    rfl
  have hexact : (normalizeOffer cur offer).totalDurationHours
      = ((normalizeOffer cur offer).itineraries.map Itinerary.durationHours).sum := by
    rcases sum_parsed_tenths offer.itineraries with ⟨K, hK⟩
    rw [hfold, hdur, hK, div_mul_cancel₀ _ (by norm_num : (10 : ℚ) ≠ 0), jsRound_intCast]
  refine ⟨hdur, hfold, hexact, ?_⟩
  intro h
  rw [hexact, hdur, h]
  simp

/-- A raw offer with no itineraries at all. -/
def offerNoItin : RawOffer :=
  { price_total := some "12.34", price_currency := some "EUR",
    validatingAirlineCodes := ["LH"], itineraries := [] }

/-- Witness for C6: an offer with no itineraries has total duration 0. -/
theorem totalDuration_correct_witness :
    (normalizeOffer "EUR" offerNoItin).totalDurationHours = 0 :=
  (totalDuration_correct "EUR" offerNoItin).2.2.2 rfl

/-! ## Request-handler lemmas -/

/-- The result list of a successful `POST` (normalization then the optional
`maxFlightHours` filter, lines 170–204). -/
def successFiltered (b : ReqBody) (offers : List RawOffer) : List NormalizedOffer :=
  let items := offers.map (normalizeOffer (b.currency.getD "EUR"))
  match b.maxFlightHours with
  | some mf =>
    if mf ≠ 0 ∧ 0 < mf then items.filter (fun x => x.totalDurationHours ≤ mf) else items
  | none => items

/-- On the success path (validation passes, origin allowed, token obtained,
provider answered `ok`), `postHandler` produces the 200 envelope with the
normalized-and-filtered results, the echoed query, and the provider query
parameters. -/
theorem postHandler_success (b : ReqBody) (cache : TokenCache) (now1 now2 : Int)
    (ex : Except String TokenResp) (offers : List RawOffer) (ts : String)
    (tok : Option String) (c' : TokenCache) (k : Nat)
    (hv : reqInvalid b = false)
    (hw : DACH_IATA.contains (normCode b.origin) = true)
    (hTok : getAmadeusToken cache now1 now2 ex = (Except.ok tok, c', k)) :
    postHandler b cache now1 now2 ex (Except.ok offers) ts =
      { status := 200,
        body := RespBody.ok
          { query :=
              { origin := normCode b.origin, destination := normCode b.destination,
                departDate := b.departDate.getD "",
                returnDate := jsOrNullStr b.returnDate,
                adults := b.adults.getD 1, currency := b.currency.getD "EUR",
                maxFlightHours := jsOrNullRat b.maxFlightHours },
            fetchedAt := ts,
            count := (successFiltered b offers).length,
            results := successFiltered b offers },
        exchangeCalls := k, providerCalled := true,
        providerQuery := some
          { originLocationCode := normCode b.origin,
            destinationLocationCode := normCode b.destination,
            departureDate := b.departDate.getD "",
            returnDate := jsOrNullStr b.returnDate,
            adults := clampAdults (b.adults.getD 1),
            currencyCode := if b.currency.getD "EUR" = "" then "EUR" else b.currency.getD "EUR",
            maxCount := "20", nonStop := "false" },
        cache := c' } := by
  have hmem : normCode b.origin ∈ DACH_IATA := by simpa using hw
  simp [postHandler, hv, hw, hmem, hTok, successFiltered]

/-- Validation passing forces a non-zero (defaulted) adults value. -/
theorem adults_ne_zero_of_valid (b : ReqBody) (hv : reqInvalid b = false) :
    ¬ (b.adults.getD 1 = 0) := by
  intro h0
  unfold reqInvalid at hv
  rw [h0] at hv
  simp at hv

/-! ## Request-handler claims -/

/-- C3: on every request reaching the filtering step, a positive supplied
`maxFlightHours` keeps exactly the normalized offers whose
`totalDurationHours` does not exceed it, and an omitted, zero or negative
`maxFlightHours` keeps every normalized offer. -/
theorem maxFlightHours_filter (b : ReqBody) (cache : TokenCache) (now1 now2 : Int)
    (ex : Except String TokenResp) (offers : List RawOffer) (ts : String)
    (tok : Option String) (c' : TokenCache) (k : Nat)
    (hv : reqInvalid b = false)
    (hw : DACH_IATA.contains (normCode b.origin) = true)
    (hTok : getAmadeusToken cache now1 now2 ex = (Except.ok tok, c', k)) :
    ∃ env, (postHandler b cache now1 now2 ex (Except.ok offers) ts).body = RespBody.ok env
      ∧ (∀ mf, b.maxFlightHours = some mf → 0 < mf →
          ∀ o, o ∈ env.results
            ↔ o ∈ offers.map (normalizeOffer (b.currency.getD "EUR"))
              ∧ o.totalDurationHours ≤ mf)
      ∧ ((∀ mf, b.maxFlightHours = some mf → mf ≤ 0) →
          env.results = offers.map (normalizeOffer (b.currency.getD "EUR"))) := by
  rw [postHandler_success b cache now1 now2 ex offers ts tok c' k hv hw hTok]
  refine ⟨_, rfl, ?_, ?_⟩
  · intro mf hmf hpos o
    have hcond : mf ≠ 0 ∧ 0 < mf := ⟨ne_of_gt hpos, hpos⟩
    simp [successFiltered, hmf, hcond, List.mem_filter]
  · intro hnp
    cases hmf : b.maxFlightHours with
    | none => simp [successFiltered, hmf]
    | some mf =>
      have hle : mf ≤ 0 := hnp mf hmf
      have hcond : ¬ (mf ≠ 0 ∧ 0 < mf) := by
        rintro ⟨h1, h2⟩
        exact absurd h2 (not_lt.mpr hle)
      simp [successFiltered, hmf, hcond]

/-- A valid DACH-origin request asking for at most 5 flight hours. -/
def bodyFRA : ReqBody :=
  { origin := some "FRA", destination := some "JFK", departDate := some "2025-06-01",
    returnDate := none, adults := some 2, currency := none, maxFlightHours := some 5 }

/-- A raw offer with a single 2-hour itinerary. -/
def offerShort : RawOffer :=
  { price_total := some "100.00", price_currency := some "EUR",
    validatingAirlineCodes := ["LH"],
    itineraries := [{ duration := some "PT2H", segments := [] }] }

/-- A raw offer with a single 10-hour itinerary. -/
def offerLong : RawOffer :=
  { price_total := some "900.00", price_currency := some "EUR",
    validatingAirlineCodes := ["UA"],
    itineraries := [{ duration := some "PT10H", segments := [] }] }

/-- Witness for C3: with `maxFlightHours = 5` supplied, the results keep
exactly the normalized offers whose total duration is at most 5. -/
theorem maxFlightHours_filter_witness :
    ∃ env, (postHandler bodyFRA ⟨none, 0⟩ 0 0 (Except.ok ⟨some "tok", some 1799⟩)
        (Except.ok [offerShort, offerLong]) "ts").body = RespBody.ok env
      ∧ (∀ mf, bodyFRA.maxFlightHours = some mf → 0 < mf →
          ∀ o, o ∈ env.results
            ↔ o ∈ [offerShort, offerLong].map (normalizeOffer (bodyFRA.currency.getD "EUR"))
              ∧ o.totalDurationHours ≤ mf)
      ∧ ((∀ mf, bodyFRA.maxFlightHours = some mf → mf ≤ 0) →
          env.results
            = [offerShort, offerLong].map (normalizeOffer (bodyFRA.currency.getD "EUR"))) :=
  maxFlightHours_filter bodyFRA ⟨none, 0⟩ 0 0 (Except.ok ⟨some "tok", some 1799⟩)
    [offerShort, offerLong] "ts" (some "tok") ⟨some "tok", 1799000⟩ 1 rfl rfl rfl

/-- C7 amended: for every request that passes the required-field validation
and whose normalized origin code is not in the DACH allow-list, the
response is 400 `{error:"Origin not allowed (DACH only)"}` with no
credential exchange and no provider call, regardless of the (non-blank)
destination value. -/
theorem origin_reject (b : ReqBody) (cache : TokenCache) (now1 now2 : Int)
    (ex : Except String TokenResp) (prov : Except (Nat × String) (List RawOffer)) (ts : String)
    (hv : reqInvalid b = false)
    (hw : DACH_IATA.contains (normCode b.origin) = false) :
    postHandler b cache now1 now2 ex prov ts =
      { status := 400, body := RespBody.err "Origin not allowed (DACH only)" none,
        exchangeCalls := 0, providerCalled := false, providerQuery := none, cache := cache } := by
  have hmem : ¬ (normCode b.origin ∈ DACH_IATA) := by simpa using hw
  simp [postHandler, hv, hw, hmem]

/-- A request body with a non-DACH origin and a blank destination. -/
def bodyBadBoth : ReqBody :=
  { origin := some "JFK", destination := some "", departDate := some "2025-06-01",
    returnDate := none, adults := some 2, currency := none, maxFlightHours := none }

/-- Counterexample to C7 as stated: with origin `JFK` (not in the
allow-list) and a blank destination, the required-field validation fires
first, so the 400 body is `Missing required fields`, not
`Origin not allowed (DACH only)` — the claimed body does not hold
"regardless of the destination value". -/
theorem origin_reject_counterexample :
    DACH_IATA.contains (normCode bodyBadBoth.origin) = false
    ∧ (postHandler bodyBadBoth ⟨none, 0⟩ 0 0 (Except.error "x")
        (Except.error (500, "x")) "ts").body = RespBody.err "Missing required fields" none
    ∧ RespBody.err "Missing required fields" none
        ≠ RespBody.err "Origin not allowed (DACH only)" none := by
  refine ⟨rfl, rfl, ?_⟩
  decide

/-- A valid request body whose origin is not in the allow-list. -/
def bodyJFK : ReqBody :=
  { origin := some "JFK", destination := some "PMI", departDate := some "2025-06-01",
    returnDate := none, adults := some 2, currency := none, maxFlightHours := none }

/-- Witness for C7 (amended): a valid request from `JFK` is rejected with
the whitelist error and performs no network call. -/
theorem origin_reject_witness :
    postHandler bodyJFK ⟨none, 0⟩ 0 0 (Except.error "x") (Except.error (500, "x")) "ts" =
      { status := 400, body := RespBody.err "Origin not allowed (DACH only)" none,
        exchangeCalls := 0, providerCalled := false, providerQuery := none,
        cache := ⟨none, 0⟩ } :=
  origin_reject bodyJFK ⟨none, 0⟩ 0 0 (Except.error "x") (Except.error (500, "x")) "ts" rfl rfl

/-- C9: on the success path the envelope's `query.origin`/`query.destination`
are the normalized (uppercased, 3-truncated) codes while `query.adults` and
`query.currency` echo the raw (defaulted) body values; the adults value
sent to the provider is instead clamped into `[1, 9]`. -/
theorem envelope_echo (b : ReqBody) (cache : TokenCache) (now1 now2 : Int)
    (ex : Except String TokenResp) (offers : List RawOffer) (ts : String)
    (tok : Option String) (c' : TokenCache) (k : Nat)
    (hv : reqInvalid b = false)
    (hw : DACH_IATA.contains (normCode b.origin) = true)
    (hTok : getAmadeusToken cache now1 now2 ex = (Except.ok tok, c', k)) :
    (postHandler b cache now1 now2 ex (Except.ok offers) ts).status = 200
    ∧ ∃ env pq,
        (postHandler b cache now1 now2 ex (Except.ok offers) ts).body = RespBody.ok env
        ∧ (postHandler b cache now1 now2 ex (Except.ok offers) ts).providerQuery = some pq
        ∧ env.query.origin = normCode b.origin
        ∧ env.query.destination = normCode b.destination
        ∧ env.query.adults = b.adults.getD 1
        ∧ env.query.currency = b.currency.getD "EUR"
        ∧ pq.adults = min (max (b.adults.getD 1) 1) 9 := by
  rw [postHandler_success b cache now1 now2 ex offers ts tok c' k hv hw hTok]
  refine ⟨rfl, _, _, rfl, rfl, rfl, rfl, rfl, rfl, ?_⟩
  unfold clampAdults jsOrOne
  rw [if_neg (adults_ne_zero_of_valid b hv)]

/-- A valid request with lowercase codes and 20 adults. -/
def bodySTR20 : ReqBody :=
  { origin := some "str", destination := some "palma", departDate := some "2025-06-01",
    returnDate := none, adults := some 20, currency := some "USD", maxFlightHours := none }

/-- Witness for C9: with `adults = 20` the envelope echoes 20 while the
provider receives the clamped value, which differs from 20. -/
theorem envelope_echo_witness :
    ((postHandler bodySTR20 ⟨none, 0⟩ 0 0 (Except.ok ⟨some "tok", some 1799⟩)
        (Except.ok []) "ts").status = 200
    ∧ ∃ env pq,
        (postHandler bodySTR20 ⟨none, 0⟩ 0 0 (Except.ok ⟨some "tok", some 1799⟩)
          (Except.ok []) "ts").body = RespBody.ok env
        ∧ (postHandler bodySTR20 ⟨none, 0⟩ 0 0 (Except.ok ⟨some "tok", some 1799⟩)
            (Except.ok []) "ts").providerQuery = some pq
        ∧ env.query.origin = normCode bodySTR20.origin
        ∧ env.query.destination = normCode bodySTR20.destination
        ∧ env.query.adults = bodySTR20.adults.getD 1
        ∧ env.query.currency = bodySTR20.currency.getD "EUR"
        ∧ pq.adults = min (max (bodySTR20.adults.getD 1) 1) 9)
    ∧ min (max ((20 : Int)) 1) 9 ≠ (20 : Int) :=
  ⟨envelope_echo bodySTR20 ⟨none, 0⟩ 0 0 (Except.ok ⟨some "tok", some 1799⟩) [] "ts"
      (some "tok") ⟨some "tok", 1799000⟩ 1 rfl rfl rfl,
   by decide⟩

end Tripmind
